import Mathlib

/-!
Verification development for `linux_dex.py`, a PyQt6 desktop wrapper around
the `adb` (device bridge) and `scrcpy` (screen mirroring) command-line tools.

The Python source is shallowly embedded: text is modelled as `List Char`
(named `Str`), the results of external processes and of modal dialogs are
passed in as explicit environment arguments, and each Qt slot (button
handler) becomes a function from the application state and its environment
inputs to a new state together with a list of observable effects (external
commands run, processes spawned, dialogs shown, worker threads started).
Python exceptions are modelled with `PyResult`.
-/

/-- Python strings are modelled as lists of characters. -/
abbrev Str := List Char

/-- The Python exceptions that the embedded code can raise. -/
inductive ExnKind where
  | indexError
  | typeError
  | timeoutExpired
  deriving DecidableEq, Repr

/-- Result of running a piece of Python code: a value, or an uncaught exception. -/
inductive PyResult (α : Type) where
  | ok (a : α)
  | exn (k : ExnKind)
  deriving DecidableEq, Repr

/-- Alias for `Char.isWhitespace`, the model of Python's notion of whitespace. -/
def isWs (c : Char) : Bool := c.isWhitespace

/-- Helper for `splitlines`: accumulates the current line (reversed) while
scanning for newline characters. -/
def pyLinesAux : Str → Str → List Str
  | [], cur => [cur.reverse]
  | c :: cs, cur =>
      if c = '\n' then cur.reverse :: pyLinesAux cs [] else pyLinesAux cs (c :: cur)

/-- Model of Python `str.splitlines()`, splitting at newline characters.
(Unlike Python it may produce a trailing empty line for input ending in a
newline, and it produces `[[]]` on empty input; every use site filters out
empty lines, so the difference is invisible to the program.) -/
def splitlines (s : Str) : List Str := pyLinesAux s []

/-- Model of Python `str.strip()`: remove leading and trailing whitespace. -/
def pyStrip (s : Str) : Str := ((s.dropWhile isWs).reverse.dropWhile isWs).reverse

/-- Helper for `str.split()`: accumulates the current token (reversed). -/
def pyTokensAux : Str → Str → List Str
  | [], cur => if cur = [] then [] else [cur.reverse]
  | c :: cs, cur =>
      if isWs c then
        (if cur = [] then pyTokensAux cs [] else cur.reverse :: pyTokensAux cs [])
      else pyTokensAux cs (c :: cur)

/-- Model of Python `str.split()` with no argument: split on runs of
whitespace, yielding no empty tokens. -/
def pySplit (s : Str) : List Str := pyTokensAux s []

/-- Model of Python `" ".join(parts)`. -/
def joinSpace (parts : List Str) : Str := List.intercalate [' '] parts

/-- Model of Python `s.endswith(":")`. -/
def endsWithColon (s : Str) : Bool := s.getLast? == some ':'

/-- Model of Python `str(n)` for integers. -/
def pyStr (n : Int) : Str := (toString n).data

/-- Model of Python `str(x)` for an optional integer (`None` prints as "None"). -/
def pyStrOpt : Option Int → Str
  | none => ("None").data
  | some n => pyStr n

/-- Model of `ADB = shutil.which("adb") or "adb"` — the resolved bridge-tool
executable, modelled as the bare tool name. -/
def ADB : Str := ("adb").data

/-- Model of `SCRCPY = shutil.which("scrcpy") or "scrcpy"` — the resolved
mirroring-tool executable, modelled as the bare tool name. -/
def SCRCPY : Str := ("scrcpy").data

/-- The possible outcomes of `subprocess.run` on a command: the process
completed with an exit code and captured output, or the executable was
missing and `FileNotFoundError` was raised. This is the environment input
to `runCmd`. -/
inductive RunOutcome where
  | completed (retcode : Int) (stdout stderr : Str)
  | notFound (msg : Str)
  deriving DecidableEq, Repr

/-- The helper called `run_cmd(cmd)` in `linux_dex.py`: run the command, return
`(retcode, stdout.strip(), stderr.strip())`; the `try/except
FileNotFoundError` turns a missing executable into `(127, "", str(e))`.
The function is total (it never raises): both outcomes of `subprocess.run`
are handled. -/
def runCmd (cmd : List Str) (outcome : RunOutcome) : Int × Str × Str :=
  match cmd, outcome with
  | _, .completed r o e => (r, pyStrip o, pyStrip e)
  | _, .notFound m => (127, [], m)

/-- Embedding of `adb(cmd_args) = run_cmd([ADB] + cmd_args)`. -/
def adb (cmd_args : List Str) (outcome : RunOutcome) : Int × Str × Str :=
  runCmd (ADB :: cmd_args) outcome

/-- The argument list `[ADB] + cmd_args` actually executed by `adb`. -/
def adb_argv (cmd_args : List Str) : List Str := ADB :: cmd_args

/-- The token compared against `parts[0]` to skip adb's daemon-startup lines. -/
def daemonToken : Str := ("daemon").data

/-- The placeholder combo-box entry shown when no device was found. -/
def placeholder : Str := ("<kein Gerät>").data

/-- The stripped non-empty lines of the device-list output:
`[l.strip() for l in out.splitlines() if l.strip()]`. -/
def nonemptyLines (out : Str) : List Str :=
  ((splitlines out).map pyStrip).filter (fun l => l ≠ [])

/-- One iteration of the device-list loop body (lines 142-148 of the source):
`parts = l.split(); device_id = parts[0]; skip "daemon" and ids ending in ":";
devices.append(device_id + " " + " ".join(parts[1:]))`. A stripped non-empty
line always has a first token (`pySplit_ne_nil_of_stripped` below), so the
`parts[0]` access cannot fail; the impossible no-token case yields no entry. -/
def device_entry_of_line (l : Str) : Option Str :=
  match pySplit l with
  | [] => none
  | device_id :: rest =>
      if device_id = daemonToken ∨ endsWithColon device_id = true then none
      else some (device_id ++ ' ' :: joinSpace rest)

/-- The device-entry list built by `refresh_devices` from the device-list
stdout text: drop the header line (`lines[1:]`), apply the loop body to each
remaining line in order. -/
def refresh_parse (out : Str) : List Str :=
  ((nonemptyLines out).drop 1).filterMap device_entry_of_line

/-- The first whitespace-separated token of a combo-box entry — how the
application recovers the device identifier from an entry (`txt.split()[0]`). -/
def first_token (e : Str) : Str := (pySplit e).headD []

/-- Modelled from the spec (claim C1's wording), for comparison with
`refresh_parse`: the device identifiers are "the first whitespace-separated
token of every non-empty line after the first (header) line, excluding tokens
equal to `daemon` and tokens ending in `:`". -/
def spec_device_ids (out : Str) : List Str :=
  (((nonemptyLines out).drop 1).filterMap (fun l => (pySplit l).head?)).filter
    (fun t => decide (t ≠ daemonToken ∧ endsWithColon t = false))

/-- Embedding of `get_selected_device`: `None` for an empty combo text, otherwise
`txt.split()[0]` — which raises `IndexError` when the non-empty text has no
token (i.e. is all whitespace). -/
def get_selected_device (txt : Str) : PyResult (Option Str) :=
  if txt = [] then .ok none
  else
    match pySplit txt with
    | [] => .exn .indexError
    | t :: _ => .ok (some t)

/-- The guard `if not device or device.startswith("<")` shared by the
mirror-start, push, pull and install handlers: `device` is `None`, empty, or
begins with `<`. -/
def no_device : Option Str → Bool
  | none => true
  | some [] => true
  | some (c :: _) => c = '<'

/-- An opaque handle to a spawned external process (`subprocess.Popen` value). -/
structure Proc where
  pid : Nat
  deriving DecidableEq, Repr

/-- The kinds of worker thread the handlers may start. -/
inductive ThreadKind where
  | scrcpyReader
  | pushWorker (device loc target : Str)
  | pullWorker (device remote loc : Str)
  | installWorker (device apkPath : Str)
  deriving DecidableEq, Repr

/-- Observable effects of one handler invocation: synchronous external
command runs, mirror-process spawn attempts, modal dialogs, worker-thread
starts, and termination of the tracked mirror process. -/
inductive Effect where
  | runExternal (cmd : List Str)
  | popen (cmd : List Str)
  | warn (title msg : Str)
  | info (title msg : Str)
  | critical (title msg : Str)
  | thread (k : ThreadKind)
  | terminate (p : Proc)
  deriving DecidableEq, Repr

/-- The mutable UI-local state of `DexApp`: the device combo box (its item
list and current text), the single tracked mirroring-process handle
`scrcpy_proc`, the log buffer as a list of lines, and the two text inputs
read by handlers. -/
structure AppState where
  combo_items : List Str
  combo_text : Str
  scrcpy_proc : Option Proc
  log : List Str
  app_start_input : Str
  clip_text : Str
  deriving DecidableEq, Repr

/-- The state right after `__init__` builds the widgets (before the initial
`refresh_devices` call). -/
def initState : AppState :=
  { combo_items := [], combo_text := [], scrcpy_proc := none
    log := [], app_start_input := [], clip_text := [] }

/-- Embedding of `log_msg(*parts)`: join the parts with spaces and append one line to the
log buffer. (The scrollbar adjustment is pure presentation.) -/
def log_msg (s : AppState) (parts : List Str) : AppState :=
  { s with log := s.log ++ [joinSpace parts] }

/-- Title of the "no device selected" warning dialog. -/
def warnNoDevTitle : Str := ("Kein Gerät").data

/-- Body of the "no device selected" warning dialog. -/
def warnNoDevMsg : Str := ("Bitte zuerst ein Gerät auswählen/verbinden.").data

/-- Outcome of a `subprocess.Popen` attempt: a process handle, or
`FileNotFoundError` (caught by `start_scrcpy`). -/
inductive SpawnOutcome where
  | spawned (p : Proc)
  | notFound (msg : Str)
  deriving DecidableEq, Repr

/-- Embedding of `refresh_devices`: run `adb devices -l`; on failure log and clear the
combo box; otherwise parse the device list, repopulate the combo box (with
the placeholder entry when no devices were found — the combo box then shows
its first item), and log the device count. -/
def refresh_devices (s : AppState) (outcome : RunOutcome) : AppState × List Effect :=
  let r := adb [("devices").data, ("-l").data] outcome
  if r.1 ≠ 0 then
    let s1 := log_msg s [("adb fehlt oder Fehler:").data, r.2.2]
    ({ s1 with combo_items := [], combo_text := [] },
     [.runExternal (adb_argv [("devices").data, ("-l").data])])
  else
    let devices := refresh_parse r.2.1
    let items := if devices = [] then [placeholder] else devices
    let s1 := { s with combo_items := items, combo_text := items.headD [] }
    (log_msg s1 [("Gefundene Geräte:").data, pyStr (devices.length : Int)],
     [.runExternal (adb_argv [("devices").data, ("-l").data])])

/-- Embedding of `check_connection`: run `adb get-state` and log whether a device is
connected (`err or out` picks the stderr text when it is non-empty). -/
def check_connection (s : AppState) (outcome : RunOutcome) : AppState × List Effect :=
  let r := adb [("get-state").data] outcome
  if r.1 = 0 ∧ pyStrip r.2.1 = ("device").data then
    (log_msg s [("ADB: Gerät verbunden (state:").data, pyStrip r.2.1 ++ (")").data],
     [.runExternal (adb_argv [("get-state").data])])
  else
    (log_msg s [("ADB: Kein verbundenes/autorisiertes Gerät oder Fehler:").data,
        if r.2.2 ≠ [] then r.2.2 else r.2.1],
     [.runExternal (adb_argv [("get-state").data])])

/-- The full command line built at line 172 of the source:
`[SCRCPY, "-s", device, "--stay-awake", "--prefer-text", "--max-size", "1280"]`. -/
def scrcpy_cmd (device : Str) : List Str :=
  [SCRCPY, ("-s").data, device, ("--stay-awake").data, ("--prefer-text").data,
   ("--max-size").data, ("1280").data]

/-- Embedding of `start_scrcpy`: warn when no (real) device is selected; show an
informational dialog when the tracked mirror process is still alive
(`alive` models `poll() is None`); otherwise spawn scrcpy, remember its
handle and start the stderr-reader thread, catching a missing executable. -/
def start_scrcpy (s : AppState) (alive : Bool) (spawn : SpawnOutcome) :
    PyResult (AppState × List Effect) :=
  match get_selected_device s.combo_text with
  | .exn k => .exn k
  | .ok none => .ok (s, [.warn warnNoDevTitle warnNoDevMsg])
  | .ok (some device) =>
      if no_device (some device) then .ok (s, [.warn warnNoDevTitle warnNoDevMsg])
      else if s.scrcpy_proc.isSome && alive then
        .ok (s, [.info (("scrcpy läuft").data) (("scrcpy läuft bereits.").data)])
      else
        let cmd := scrcpy_cmd device
        let s1 := log_msg s [("Starte scrcpy:").data, joinSpace cmd]
        match spawn with
        | .spawned p =>
            .ok ({ s1 with scrcpy_proc := some p }, [.popen cmd, .thread .scrcpyReader])
        | .notFound m =>
            .ok (log_msg s1 [("scrcpy nicht gefunden:").data, m],
                 [.popen cmd,
                  .critical (("Fehler").data)
                    (("scrcpy nicht installiert oder nicht im PATH.").data)])

/-- Embedding of `_scrcpy_reader` (the stderr-reader thread body): return at once when no
handle is tracked, otherwise log each stderr line and then the exit code
(`poll()`, which may still be `None`). -/
def scrcpy_reader (s : AppState) (stderrLines : List Str) (exitCode : Option Int) :
    AppState × List Effect :=
  match s.scrcpy_proc with
  | none => (s, [])
  | some _ =>
      let s1 := stderrLines.foldl (fun st l => log_msg st [("[scrcpy]").data, pyStrip l]) s
      (log_msg s1 [("scrcpy beendet (exit code)").data, pyStrOpt exitCode], [])

/-- Embedding of `stop_scrcpy`: when a tracked process is still alive, terminate it and
wait up to three seconds (`waitOk` models the wait finishing in time;
`wait` raises `TimeoutExpired` otherwise); in every other case just log
"Kein scrcpy Prozess aktiv.". The handle field is never assigned here. -/
def stop_scrcpy (s : AppState) (alive : Bool) (waitOk : Bool) :
    PyResult (AppState × List Effect) :=
  match s.scrcpy_proc with
  | some p =>
      if alive then
        if waitOk then .ok (log_msg s [("scrcpy gestoppt.").data], [.terminate p])
        else .exn .timeoutExpired
      else .ok (log_msg s [("Kein scrcpy Prozess aktiv.").data], [])
  | none => .ok (log_msg s [("Kein scrcpy Prozess aktiv.").data], [])

/-- Embedding of `cmd_push_file`: device guard, then two file dialogs (an empty result
models a cancelled dialog and returns silently), then log and start the
push worker thread. -/
def cmd_push_file (s : AppState) (localDlg targetDlg : Str) :
    PyResult (AppState × List Effect) :=
  match get_selected_device s.combo_text with
  | .exn k => .exn k
  | .ok none => .ok (s, [.warn warnNoDevTitle warnNoDevMsg])
  | .ok (some device) =>
      if no_device (some device) then .ok (s, [.warn warnNoDevTitle warnNoDevMsg])
      else if localDlg = [] then .ok (s, [])
      else if targetDlg = [] then .ok (s, [])
      else
        .ok (log_msg s [("adb push").data, localDlg, ("->").data, targetDlg],
             [.thread (.pushWorker device localDlg targetDlg)])

/-- Embedding of `_adb_push_thread` (worker body): run `adb -s device push local target`
and log the result triple. -/
def adb_push_thread (s : AppState) (device loc target : Str) (outcome : RunOutcome) :
    AppState × List Effect :=
  let args := [("-s").data, device, ("push").data, loc, target]
  let r := adb args outcome
  (log_msg s [("push result:").data, pyStr r.1, r.2.1, r.2.2],
   [.runExternal (adb_argv args)])

/-- Embedding of `cmd_pull_file`: device guard; the remote path comes from a first dialog
with a second dialog as fallback; a cancelled dialog (empty result) returns
silently; then log and start the pull worker thread. -/
def cmd_pull_file (s : AppState) (remoteDlg1 remoteDlg2 localDlg : Str) :
    PyResult (AppState × List Effect) :=
  match get_selected_device s.combo_text with
  | .exn k => .exn k
  | .ok none => .ok (s, [.warn warnNoDevTitle warnNoDevMsg])
  | .ok (some device) =>
      if no_device (some device) then .ok (s, [.warn warnNoDevTitle warnNoDevMsg])
      else
        let remote := if remoteDlg1 = [] then remoteDlg2 else remoteDlg1
        if remote = [] then .ok (s, [])
        else if localDlg = [] then .ok (s, [])
        else
          .ok (log_msg s [("adb pull").data, remote, ("->").data, localDlg],
               [.thread (.pullWorker device remote localDlg)])

/-- Embedding of `_adb_pull_thread` (worker body): run `adb -s device pull remote local`
and log the result triple. -/
def adb_pull_thread (s : AppState) (device remote loc : Str) (outcome : RunOutcome) :
    AppState × List Effect :=
  let args := [("-s").data, device, ("pull").data, remote, loc]
  let r := adb args outcome
  (log_msg s [("pull result:").data, pyStr r.1, r.2.1, r.2.2],
   [.runExternal (adb_argv args)])

/-- Embedding of `install_apk`: device guard, one file dialog, then log and start the
install worker thread. -/
def install_apk (s : AppState) (apkDlg : Str) : PyResult (AppState × List Effect) :=
  match get_selected_device s.combo_text with
  | .exn k => .exn k
  | .ok none => .ok (s, [.warn warnNoDevTitle warnNoDevMsg])
  | .ok (some device) =>
      if no_device (some device) then .ok (s, [.warn warnNoDevTitle warnNoDevMsg])
      else if apkDlg = [] then .ok (s, [])
      else
        .ok (log_msg s [("Installiere APK:").data, apkDlg],
             [.thread (.installWorker device apkDlg)])

/-- Embedding of `_install_thread` (worker body): run `adb -s device install -r apk` and
log the result triple. -/
def adb_install_thread (s : AppState) (device apkPath : Str) (outcome : RunOutcome) :
    AppState × List Effect :=
  let args := [("-s").data, device, ("install").data, ("-r").data, apkPath]
  let r := adb args outcome
  (log_msg s [("install result:").data, pyStr r.1, r.2.1, r.2.2],
   [.runExternal (adb_argv args)])

/-- Embedding of `start_app`: reads the selected device but checks only the
package/activity field; with an empty field it warns, otherwise it logs and
invokes `adb -s device shell am start -n pkg` directly — with no device
selected, `device` is Python `None`, the argument list contains `None`, and
`subprocess.run` raises `TypeError` (not caught by the helper, which handles
only `FileNotFoundError`; the partial log update made before the crash is
not retained by the exception model). -/
def start_app (s : AppState) (outcome : RunOutcome) : PyResult (AppState × List Effect) :=
  match get_selected_device s.combo_text with
  | .exn k => .exn k
  | .ok dev =>
      let pkg_activity := pyStrip s.app_start_input
      if pkg_activity = [] then
        .ok (s, [.warn (("Keine Aktivität").data)
              (("Bitte package/activity angeben (z.B. com.example.app/.MainActivity).").data)])
      else
        let s1 := log_msg s [("Starte App:").data, pkg_activity]
        match dev with
        | none => .exn .typeError
        | some device =>
            let args := [("-s").data, device, ("shell").data, ("am").data,
                         ("start").data, ("-n").data, pkg_activity]
            let r := adb args outcome
            .ok (log_msg s1 [("start app:").data, pyStr r.1, r.2.1, r.2.2],
                 [.runExternal (adb_argv args)])

/-- Python `text.replace(chr34, backslash-chr34)` used by `send_clipboard`. -/
def pyEscapeQuotes (s : Str) : Str :=
  s.foldr (fun c acc => if c = '"' then '\\' :: '"' :: acc else c :: acc) []

/-- Embedding of `send_clipboard`: like `start_app`, checks only the text field (warning
when empty); otherwise escapes double quotes, logs, and invokes
`adb -s device shell input text safe` — again raising `TypeError` when no
device is selected. -/
def send_clipboard (s : AppState) (outcome : RunOutcome) : PyResult (AppState × List Effect) :=
  match get_selected_device s.combo_text with
  | .exn k => .exn k
  | .ok dev =>
      if s.clip_text = [] then
        .ok (s, [.warn (("Kein Text").data) (("Bitte Text eingeben.").data)])
      else
        let safe := pyEscapeQuotes s.clip_text
        let s1 := log_msg s [("Sende text to device:").data, safe]
        match dev with
        | none => .exn .typeError
        | some device =>
            let args := [("-s").data, device, ("shell").data, ("input").data,
                         ("text").data, safe]
            let r := adb args outcome
            .ok (log_msg s1 [("clipboard send:").data, pyStr r.1, r.2.1, r.2.2],
                 [.runExternal (adb_argv args)])

/-- The user picking combo-box entry `i` (out-of-range indices leave the
selection unchanged). -/
def select_index (s : AppState) (i : Nat) : AppState :=
  if i < s.combo_items.length then { s with combo_text := s.combo_items.getD i [] } else s

/-- One UI event: a button click (with the environment inputs its handler
consumes), a combo-box selection, or the body of one worker thread. -/
inductive UiEvent where
  | refreshClick (outcome : RunOutcome)
  | connectClick (outcome : RunOutcome)
  | launchClick (alive : Bool) (spawn : SpawnOutcome)
  | stopClick (alive : Bool) (waitOk : Bool)
  | pushClick (localDlg targetDlg : Str)
  | pullClick (remoteDlg1 remoteDlg2 localDlg : Str)
  | installClick (apkDlg : Str)
  | startAppClick (outcome : RunOutcome)
  | clipboardClick (outcome : RunOutcome)
  | comboSelect (i : Nat)
  | readerThread (stderrLines : List Str) (exitCode : Option Int)
  | pushThread (device loc target : Str) (outcome : RunOutcome)
  | pullThread (device remote loc : Str) (outcome : RunOutcome)
  | installThread (device apkPath : Str) (outcome : RunOutcome)

/-- The application's step function: dispatch one UI event to its handler. -/
def step (s : AppState) (e : UiEvent) : PyResult (AppState × List Effect) :=
  match e with
  | .refreshClick oc => .ok (refresh_devices s oc)
  | .connectClick oc => .ok (check_connection s oc)
  | .launchClick alive spawn => start_scrcpy s alive spawn
  | .stopClick alive waitOk => stop_scrcpy s alive waitOk
  | .pushClick l t => cmd_push_file s l t
  | .pullClick r1 r2 l => cmd_pull_file s r1 r2 l
  | .installClick a => install_apk s a
  | .startAppClick oc => start_app s oc
  | .clipboardClick oc => send_clipboard s oc
  | .comboSelect i => .ok (select_index s i, [])
  | .readerThread ls ec => .ok (scrcpy_reader s ls ec)
  | .pushThread d l t oc => .ok (adb_push_thread s d l t oc)
  | .pullThread d r l oc => .ok (adb_pull_thread s d r l oc)
  | .installThread d a oc => .ok (adb_install_thread s d a oc)

/-! ### Helper lemmas -/

/-- Joining a single part is that part. -/
lemma joinSpace_single (x : Str) : joinSpace [x] = x := by
  simp [joinSpace, List.intercalate]

/-- The helper `log_msg` appends exactly one line. -/
lemma log_msg_log (s : AppState) (ps : List Str) :
    (log_msg s ps).log = s.log ++ [joinSpace ps] := rfl

/-- The space character is whitespace. -/
lemma isWs_space : isWs ' ' = true := rfl

/-- Every token produced by the tokenizer is non-empty and free of
whitespace, provided the accumulator is. -/
lemma pyTokensAux_token_spec :
    ∀ (s cur : Str), (∀ c ∈ cur, isWs c = false) →
      ∀ t ∈ pyTokensAux s cur, t ≠ [] ∧ ∀ c ∈ t, isWs c = false := by
  intro s
  induction s with
  | nil =>
      intro cur hcur t ht
      by_cases h : cur = []
      · simp [pyTokensAux, h] at ht
      · simp only [pyTokensAux, if_neg h, List.mem_singleton] at ht
        subst ht
        refine ⟨by simpa using h, ?_⟩
        intro c hc
        exact hcur c (List.mem_reverse.mp hc)
  | cons a as ih =>
      intro cur hcur t ht
      by_cases hws : isWs a = true
      · by_cases h : cur = []
        · simp only [pyTokensAux, hws, if_true, h, if_pos] at ht
          exact ih [] (by simp) t (by simpa [h] using ht)
        · simp only [pyTokensAux, hws, if_true, if_neg h, List.mem_cons] at ht
          rcases ht with rfl | ht
          · refine ⟨by simpa using h, ?_⟩
            intro c hc
            exact hcur c (List.mem_reverse.mp hc)
          · exact ih [] (by simp) t ht
      · simp only [pyTokensAux, hws, if_false] at ht
        refine ih (a :: cur) ?_ t ht
        intro c hc
        rcases List.mem_cons.mp hc with rfl | hc
        · simpa using hws
        · exact hcur c hc

/-- Tokens of `pySplit` are non-empty and contain no whitespace. -/
lemma pySplit_mem_spec (l t : Str) (ht : t ∈ pySplit l) :
    t ≠ [] ∧ ∀ c ∈ t, isWs c = false :=
  pyTokensAux_token_spec l [] (by simp) t ht

/-- Scanning a whitespace-free word followed by a space first emits the
accumulated prefix and the word as one token. -/
lemma pyTokensAux_word_space :
    ∀ (id : Str), (∀ c ∈ id, isWs c = false) →
      ∀ (cur z : Str), (id ≠ [] ∨ cur ≠ []) →
        pyTokensAux (id ++ ' ' :: z) cur = (cur.reverse ++ id) :: pyTokensAux z [] := by
  intro id
  induction id with
  | nil =>
      intro _ cur z h
      have hcur : cur ≠ [] := by tauto
      simp [pyTokensAux, isWs_space, hcur]
  | cons a id ih =>
      intro hws cur z _
      have ha : isWs a = false := hws a (by simp)
      simp only [List.cons_append, pyTokensAux, ha, if_false, Bool.false_eq_true]
      show pyTokensAux (id ++ ' ' :: z) (a :: cur) = _
      rw [ih (fun c hc => hws c (by simp [hc])) (a :: cur) z (Or.inr (by simp))]
      simp

/-- Splitting a word, a space, and a remainder yields the word as first
token. -/
lemma pySplit_word_space (id z : Str) (hid : id ≠ [])
    (hws : ∀ c ∈ id, isWs c = false) :
    pySplit (id ++ ' ' :: z) = id :: pySplit z := by
  unfold pySplit
  rw [pyTokensAux_word_space id hws [] z (Or.inl hid)]
  simp

/-- The first token of a combo-box entry `id ++ " " ++ rest` is `id`, for a
whitespace-free non-empty `id`. -/
lemma first_token_entry (id z : Str) (hid : id ≠ [])
    (hws : ∀ c ∈ id, isWs c = false) :
    first_token (id ++ ' ' :: z) = id := by
  unfold first_token
  rw [pySplit_word_space id z hid hws]
  rfl

/-- Pointwise version of claim C1: the loop body keeps exactly the lines
whose first token is neither "daemon" nor ending in ":", and the first
token of the entry it builds is that line's first token. -/
lemma device_entry_spec (l : Str) :
    (device_entry_of_line l).map first_token =
      Option.filter (fun t => decide (t ≠ daemonToken ∧ endsWithColon t = false))
        ((pySplit l).head?) := by
  unfold device_entry_of_line
  cases hsp : pySplit l with
  | nil => rfl
  | cons id rest =>
      dsimp only
      by_cases hd : id = daemonToken ∨ endsWithColon id = true
      · rw [if_pos hd]
        have hpred : decide (id ≠ daemonToken ∧ endsWithColon id = false) = false := by
          rcases hd with hd | hd <;> simp [hd]
        simp [Option.filter, hpred]
      · rw [if_neg hd]
        obtain ⟨hid, hws⟩ :=
          pySplit_mem_spec l id (by rw [hsp]; exact List.mem_cons_self id rest)
        have hpred : decide (id ≠ daemonToken ∧ endsWithColon id = false) = true := by
          push_neg at hd
          simp [hd.1, Bool.eq_false_iff.mpr hd.2]
        simp [Option.filter, hpred, first_token_entry id (joinSpace rest) hid hws]

/-- Claim C1 — For every device-list stdout text, the refresh operation
extracts as device identifiers (the first token of each combo-box entry it
builds) exactly the first whitespace-separated token of every non-empty
(stripped) line after the first such line — the header — excluding tokens
equal to "daemon" and tokens ending in ":"; header and daemon lines
contribute no entry. `spec_device_ids` follows the claim's wording;
`refresh_parse` embeds the source loop. -/
theorem refresh_parse_extracts_spec_device_ids :
    ∀ out : Str, (refresh_parse out).map first_token = spec_device_ids out := by
  intro out
  unfold refresh_parse spec_device_ids
  rw [List.map_filterMap, List.filter_filterMap]
  exact List.filterMap_congr (fun l _ => device_entry_spec l)

/-- Claim C6 — The process-invocation helper always returns a flat
`(exit code, stdout, stderr)` triple (its Lean embedding is a total
function — `subprocess.run`'s two outcomes are both handled, so no
exception escapes): a missing executable yields exit code 127 with the
error text as stderr, and a completed process yields its own exit code with
its captured (stripped) output. -/
theorem runCmd_flat_triple :
    ∀ (cmd : List Str),
      (∀ (m : Str), runCmd cmd (.notFound m) = (127, [], m)) ∧
      (∀ (r : Int) (o e : Str), runCmd cmd (.completed r o e) = (r, pyStrip o, pyStrip e)) ∧
      (∀ oc : RunOutcome, ∃ v : Int × Str × Str, runCmd cmd oc = v) :=
  fun _ => ⟨fun _ => rfl, fun _ _ _ => rfl, fun _ => ⟨_, rfl⟩⟩

/-- Claim C3 — Whenever no mirroring process is alive (no handle tracked, or
the tracked process has exited), `stop_scrcpy` raises nothing, produces no
effect (nothing is terminated, no dialog), appends exactly the line
"Kein scrcpy Prozess aktiv." to the log, and leaves every other state field
unchanged. -/
theorem stop_scrcpy_noop_when_not_alive :
    ∀ (s : AppState) (alive waitOk : Bool),
      s.scrcpy_proc = none ∨ alive = false →
      stop_scrcpy s alive waitOk =
        .ok ({ s with log := s.log ++ [("Kein scrcpy Prozess aktiv.").data] }, []) := by
  intro s alive waitOk h
  unfold stop_scrcpy
  rcases h with h | h
  · simp [h, log_msg, joinSpace_single]
  · subst h
    cases hp : s.scrcpy_proc with
    | none => simp [hp, log_msg, joinSpace_single]
    | some p => simp [hp, log_msg, joinSpace_single]

/-- Closed witness for `stop_scrcpy_noop_when_not_alive` at a concrete
state with a tracked but exited process. -/
theorem stop_scrcpy_noop_witness :
    stop_scrcpy { initState with scrcpy_proc := some ⟨7⟩ } false true =
      .ok ({ { initState with scrcpy_proc := some ⟨7⟩ } with
              log := initState.log ++ [("Kein scrcpy Prozess aktiv.").data] }, []) :=
  stop_scrcpy_noop_when_not_alive { initState with scrcpy_proc := some ⟨7⟩ } false true
    (Or.inr rfl)

/-- Evaluation of `get_selected_device` on an empty combo text. -/
lemma gsd_nil : get_selected_device [] = .ok none := rfl

/-- Evaluation of `get_selected_device` on the placeholder entry returns its first token. -/
lemma gsd_placeholder : get_selected_device placeholder = .ok (some (("<kein").data)) := by
  decide

/-- The "no device selected" situation as the four guarded handlers see it:
the accessor returns `None`, or a token rejected by the guard. -/
def guard_rejects (s : AppState) : Prop :=
  get_selected_device s.combo_text = .ok none ∨
  ∃ d, get_selected_device s.combo_text = .ok (some d) ∧ no_device (some d) = true

/-- The guard `no_device` holds of any token starting with the `<` character. -/
lemma no_device_angle (d : Str) (h : d.head? = some '<') : no_device (some d) = true := by
  cases d with
  | nil => simp at h
  | cons c cs =>
      simp only [List.head?_cons, Option.some.injEq] at h
      subst h
      simp [no_device]

/-- A rejected guard makes `start_scrcpy` warn and stop. -/
lemma start_scrcpy_rejected (s : AppState) (alive : Bool) (spawn : SpawnOutcome)
    (h : guard_rejects s) :
    start_scrcpy s alive spawn = .ok (s, [.warn warnNoDevTitle warnNoDevMsg]) := by
  unfold start_scrcpy
  rcases h with h | ⟨d, hd, hnd⟩
  · simp [h]
  · simp [hd, hnd]

/-- A rejected guard makes `cmd_push_file` warn and stop. -/
lemma cmd_push_file_rejected (s : AppState) (l t : Str) (h : guard_rejects s) :
    cmd_push_file s l t = .ok (s, [.warn warnNoDevTitle warnNoDevMsg]) := by
  unfold cmd_push_file
  rcases h with h | ⟨d, hd, hnd⟩
  · simp [h]
  · simp [hd, hnd]

/-- A rejected guard makes `cmd_pull_file` warn and stop. -/
lemma cmd_pull_file_rejected (s : AppState) (r1 r2 lo : Str) (h : guard_rejects s) :
    cmd_pull_file s r1 r2 lo = .ok (s, [.warn warnNoDevTitle warnNoDevMsg]) := by
  unfold cmd_pull_file
  rcases h with h | ⟨d, hd, hnd⟩
  · simp [h]
  · simp [hd, hnd]

/-- A rejected guard makes `install_apk` warn and stop. -/
lemma install_apk_rejected (s : AppState) (a : Str) (h : guard_rejects s) :
    install_apk s a = .ok (s, [.warn warnNoDevTitle warnNoDevMsg]) := by
  unfold install_apk
  rcases h with h | ⟨d, hd, hnd⟩
  · simp [h]
  · simp [hd, hnd]

/-- Claim C4 — In every state with no selected device (empty selector or the
placeholder entry), each of file-push, file-pull and package-install is
rejected with exactly one modal warning: the state is unchanged and the
effect list holds no external-command run, no spawn and no worker-thread
start, whatever the dialog results would have been. -/
theorem transfer_ops_rejected_without_device :
    ∀ (s : AppState) (l t r1 r2 lo a : Str),
      s.combo_text = [] ∨ s.combo_text = placeholder →
      cmd_push_file s l t = .ok (s, [.warn warnNoDevTitle warnNoDevMsg]) ∧
      cmd_pull_file s r1 r2 lo = .ok (s, [.warn warnNoDevTitle warnNoDevMsg]) ∧
      install_apk s a = .ok (s, [.warn warnNoDevTitle warnNoDevMsg]) := by
  intro s l t r1 r2 lo a h
  have hk : guard_rejects s := by
    rcases h with h | h
    · exact Or.inl (by rw [h]; rfl)
    · exact Or.inr ⟨("<kein").data, by rw [h]; exact gsd_placeholder, by decide⟩
  exact ⟨cmd_push_file_rejected s l t hk, cmd_pull_file_rejected s r1 r2 lo hk,
    install_apk_rejected s a hk⟩

/-- Closed witness for `transfer_ops_rejected_without_device` at a state
showing the placeholder entry. -/
theorem transfer_ops_rejected_witness :
    cmd_push_file { initState with combo_items := [placeholder], combo_text := placeholder }
        [] [] =
      .ok ({ initState with combo_items := [placeholder], combo_text := placeholder },
        [.warn warnNoDevTitle warnNoDevMsg]) ∧
    cmd_pull_file { initState with combo_items := [placeholder], combo_text := placeholder }
        [] [] [] =
      .ok ({ initState with combo_items := [placeholder], combo_text := placeholder },
        [.warn warnNoDevTitle warnNoDevMsg]) ∧
    install_apk { initState with combo_items := [placeholder], combo_text := placeholder }
        [] =
      .ok ({ initState with combo_items := [placeholder], combo_text := placeholder },
        [.warn warnNoDevTitle warnNoDevMsg]) :=
  transfer_ops_rejected_without_device
    { initState with combo_items := [placeholder], combo_text := placeholder }
    [] [] [] [] [] [] (Or.inr rfl)

/-- Claim C10 — When parsing yields zero device identifiers, a successful
refresh populates the selector with exactly the single placeholder entry
(which becomes the shown text); and any selected entry whose identifier
begins with `<` is treated as "no device selected" by the mirror-start,
push, pull and install operations: each warns and produces no
external-command, spawn or thread effect. -/
theorem placeholder_entry_guard :
    (∀ (s : AppState) (o e : Str),
      refresh_parse (pyStrip o) = [] →
      (refresh_devices s (.completed 0 o e)).1.combo_items = [placeholder] ∧
      (refresh_devices s (.completed 0 o e)).1.combo_text = placeholder) ∧
    (∀ (s : AppState) (d : Str) (alive : Bool) (spawn : SpawnOutcome) (l t r1 r2 lo a : Str),
      get_selected_device s.combo_text = .ok (some d) →
      d.head? = some '<' →
      start_scrcpy s alive spawn = .ok (s, [.warn warnNoDevTitle warnNoDevMsg]) ∧
      cmd_push_file s l t = .ok (s, [.warn warnNoDevTitle warnNoDevMsg]) ∧
      cmd_pull_file s r1 r2 lo = .ok (s, [.warn warnNoDevTitle warnNoDevMsg]) ∧
      install_apk s a = .ok (s, [.warn warnNoDevTitle warnNoDevMsg])) := by
  constructor
  · intro s o e h
    unfold refresh_devices
    simp [adb, runCmd, h, log_msg]
  · intro s d alive spawn l t r1 r2 lo a hgsd hhd
    have hk : guard_rejects s := Or.inr ⟨d, hgsd, no_device_angle d hhd⟩
    exact ⟨start_scrcpy_rejected s alive spawn hk, cmd_push_file_rejected s l t hk,
      cmd_pull_file_rejected s r1 r2 lo hk, install_apk_rejected s a hk⟩

/-- Closed witness for `placeholder_entry_guard`: an empty device list
yields the placeholder, and mirror-start on the placeholder entry warns. -/
theorem placeholder_entry_guard_witness :
    ((refresh_devices initState (.completed 0 [] [])).1.combo_items = [placeholder] ∧
     (refresh_devices initState (.completed 0 [] [])).1.combo_text = placeholder) ∧
    start_scrcpy { initState with combo_items := [placeholder], combo_text := placeholder }
        true (.spawned ⟨3⟩) =
      .ok ({ initState with combo_items := [placeholder], combo_text := placeholder },
        [.warn warnNoDevTitle warnNoDevMsg]) :=
  ⟨placeholder_entry_guard.1 initState [] [] (by decide),
   (placeholder_entry_guard.2
      { initState with combo_items := [placeholder], combo_text := placeholder }
      (("<kein").data) true (.spawned ⟨3⟩) [] [] [] [] [] []
      gsd_placeholder (by decide)).1⟩

/-- Claim C7 — Every mirror-process spawn attempt uses exactly the fixed
command line `[SCRCPY, "-s", device, "--stay-awake", "--prefer-text",
"--max-size", "1280"]` for the selected device identifier and nothing else;
and whenever a device is selected (guard passes) and no tracked process is
alive, the spawn with exactly that command line does occur. -/
theorem start_scrcpy_fixed_argv :
    (∀ (s : AppState) (alive : Bool) (spawn : SpawnOutcome) (s' : AppState)
        (effs : List Effect) (cmd : List Str),
      start_scrcpy s alive spawn = .ok (s', effs) →
      Effect.popen cmd ∈ effs →
      ∃ d, get_selected_device s.combo_text = .ok (some d) ∧
        cmd = [SCRCPY, ("-s").data, d, ("--stay-awake").data, ("--prefer-text").data,
          ("--max-size").data, ("1280").data]) ∧
    (∀ (s : AppState) (d : Str) (alive : Bool) (spawn : SpawnOutcome),
      get_selected_device s.combo_text = .ok (some d) →
      no_device (some d) = false →
      (s.scrcpy_proc.isSome && alive) = false →
      ∃ s' effs, start_scrcpy s alive spawn = .ok (s', effs) ∧
        Effect.popen [SCRCPY, ("-s").data, d, ("--stay-awake").data, ("--prefer-text").data,
          ("--max-size").data, ("1280").data] ∈ effs) := by
  constructor
  · intro s alive spawn s' effs cmd hstep hmem
    cases hg : get_selected_device s.combo_text with
    | exn k => simp [start_scrcpy, hg] at hstep
    | ok dev =>
        cases dev with
        | none =>
            simp only [start_scrcpy, hg, PyResult.ok.injEq, Prod.mk.injEq] at hstep
            obtain ⟨-, heffs⟩ := hstep
            subst heffs
            simp at hmem
        | some d =>
            simp only [start_scrcpy, hg] at hstep
            by_cases hnd : no_device (some d) = true
            · rw [if_pos hnd] at hstep
              simp only [PyResult.ok.injEq, Prod.mk.injEq] at hstep
              obtain ⟨-, heffs⟩ := hstep
              subst heffs
              simp at hmem
            · rw [if_neg hnd] at hstep
              by_cases hal : (s.scrcpy_proc.isSome && alive) = true
              · rw [if_pos hal] at hstep
                simp only [PyResult.ok.injEq, Prod.mk.injEq] at hstep
                obtain ⟨-, heffs⟩ := hstep
                subst heffs
                simp at hmem
              · rw [if_neg hal] at hstep
                cases spawn with
                | spawned p =>
                    simp only [PyResult.ok.injEq, Prod.mk.injEq] at hstep
                    obtain ⟨-, heffs⟩ := hstep
                    subst heffs
                    simp only [List.mem_cons, List.mem_singleton] at hmem
                    rcases hmem with hmem | hmem
                    · exact ⟨d, rfl, by simpa [scrcpy_cmd] using hmem⟩
                    · exact absurd hmem (by simp)
                | notFound m =>
                    simp only [PyResult.ok.injEq, Prod.mk.injEq] at hstep
                    obtain ⟨-, heffs⟩ := hstep
                    subst heffs
                    simp only [List.mem_cons, List.mem_singleton] at hmem
                    rcases hmem with hmem | hmem
                    · exact ⟨d, rfl, by simpa [scrcpy_cmd] using hmem⟩
                    · exact absurd hmem (by simp)
  · intro s d alive spawn hg hnd hal
    cases spawn with
    | spawned p =>
        refine ⟨{ log_msg s [("Starte scrcpy:").data, joinSpace (scrcpy_cmd d)] with scrcpy_proc := some p }, [Effect.popen (scrcpy_cmd d), Effect.thread .scrcpyReader], ?_, by simp [scrcpy_cmd]⟩
        simp [start_scrcpy, hg, hnd, hal]
    | notFound m =>
        refine ⟨log_msg (log_msg s [("Starte scrcpy:").data, joinSpace (scrcpy_cmd d)]) [("scrcpy nicht gefunden:").data, m], [Effect.popen (scrcpy_cmd d), Effect.critical (("Fehler").data) (("scrcpy nicht installiert oder nicht im PATH.").data)], ?_, by simp [scrcpy_cmd]⟩
        simp [start_scrcpy, hg, hnd, hal]

/-- Closed witness for `start_scrcpy_fixed_argv` at a concrete state with a
selected device "dev1" and no tracked process. -/
theorem start_scrcpy_fixed_argv_witness :
    ∃ s' effs,
      start_scrcpy { initState with combo_items := [("dev1 device").data], combo_text := ("dev1 device").data } false (.spawned ⟨4⟩) = .ok (s', effs) ∧
      Effect.popen [SCRCPY, ("-s").data, ("dev1").data, ("--stay-awake").data,
        ("--prefer-text").data, ("--max-size").data, ("1280").data] ∈ effs :=
  start_scrcpy_fixed_argv.2
    { initState with combo_items := [("dev1 device").data], combo_text := ("dev1 device").data }
    (("dev1").data) false (.spawned ⟨4⟩) (by decide) (by decide) (by decide)

/-- Folding `log_msg` over a list changes only the log field. -/
lemma foldl_log_msg_proc (g : Str → List Str) :
    ∀ (ls : List Str) (s : AppState),
      (ls.foldl (fun st l => log_msg st (g l)) s).scrcpy_proc = s.scrcpy_proc := by
  intro ls
  induction ls with
  | nil => intro s; rfl
  | cons l ls ih => intro s; rw [List.foldl_cons]; exact ih (log_msg s (g l))

/-- Handler `refresh_devices` never touches the tracked process handle. -/
lemma refresh_devices_proc (s : AppState) (oc : RunOutcome) :
    (refresh_devices s oc).1.scrcpy_proc = s.scrcpy_proc := by
  simp only [refresh_devices]
  split <;> rfl

/-- Handler `check_connection` never touches the tracked process handle. -/
lemma check_connection_proc (s : AppState) (oc : RunOutcome) :
    (check_connection s oc).1.scrcpy_proc = s.scrcpy_proc := by
  simp only [check_connection]
  split <;> rfl

/-- Handler `stop_scrcpy` never assigns the handle field. -/
lemma stop_scrcpy_proc (s : AppState) (alive waitOk : Bool) (s' : AppState)
    (effs : List Effect) (h : stop_scrcpy s alive waitOk = .ok (s', effs)) :
    s'.scrcpy_proc = s.scrcpy_proc := by
  unfold stop_scrcpy at h
  cases hp : s.scrcpy_proc with
  | some p =>
      rw [hp] at h
      split_ifs at h
      · cases h; exact hp
      · cases h; exact hp
  | none => rw [hp] at h; cases h; exact hp

/-- Handler `cmd_push_file` never touches the tracked process handle. -/
lemma cmd_push_file_proc (s : AppState) (l t : Str) (s' : AppState)
    (effs : List Effect) (h : cmd_push_file s l t = .ok (s', effs)) :
    s'.scrcpy_proc = s.scrcpy_proc := by
  unfold cmd_push_file at h
  cases hg : get_selected_device s.combo_text with
  | exn k => rw [hg] at h; cases h
  | ok dev =>
      rw [hg] at h
      cases dev with
      | none => cases h; rfl
      | some d =>
          dsimp only at h
          split_ifs at h <;> (cases h; rfl)

/-- Handler `cmd_pull_file` never touches the tracked process handle. -/
lemma cmd_pull_file_proc (s : AppState) (r1 r2 lo : Str) (s' : AppState)
    (effs : List Effect) (h : cmd_pull_file s r1 r2 lo = .ok (s', effs)) :
    s'.scrcpy_proc = s.scrcpy_proc := by
  unfold cmd_pull_file at h
  cases hg : get_selected_device s.combo_text with
  | exn k => rw [hg] at h; cases h
  | ok dev =>
      rw [hg] at h
      cases dev with
      | none => cases h; rfl
      | some d =>
          dsimp only at h
          split_ifs at h <;> (cases h; rfl)

/-- Handler `install_apk` never touches the tracked process handle. -/
lemma install_apk_proc (s : AppState) (a : Str) (s' : AppState)
    (effs : List Effect) (h : install_apk s a = .ok (s', effs)) :
    s'.scrcpy_proc = s.scrcpy_proc := by
  unfold install_apk at h
  cases hg : get_selected_device s.combo_text with
  | exn k => rw [hg] at h; cases h
  | ok dev =>
      rw [hg] at h
      cases dev with
      | none => cases h; rfl
      | some d =>
          dsimp only at h
          split_ifs at h <;> (cases h; rfl)

/-- Handler `start_app` never touches the tracked process handle. -/
lemma start_app_proc (s : AppState) (oc : RunOutcome) (s' : AppState)
    (effs : List Effect) (h : start_app s oc = .ok (s', effs)) :
    s'.scrcpy_proc = s.scrcpy_proc := by
  unfold start_app at h
  cases hg : get_selected_device s.combo_text with
  | exn k => rw [hg] at h; cases h
  | ok dev =>
      rw [hg] at h
      dsimp only at h
      split_ifs at h
      · cases h; rfl
      · cases dev with
        | none => cases h
        | some d => cases h; rfl

/-- Handler `send_clipboard` never touches the tracked process handle. -/
lemma send_clipboard_proc (s : AppState) (oc : RunOutcome) (s' : AppState)
    (effs : List Effect) (h : send_clipboard s oc = .ok (s', effs)) :
    s'.scrcpy_proc = s.scrcpy_proc := by
  unfold send_clipboard at h
  cases hg : get_selected_device s.combo_text with
  | exn k => rw [hg] at h; cases h
  | ok dev =>
      rw [hg] at h
      dsimp only at h
      split_ifs at h
      · cases h; rfl
      · cases dev with
        | none => cases h
        | some d => cases h; rfl

/-- Handler `select_index` never touches the tracked process handle. -/
lemma select_index_proc (s : AppState) (i : Nat) :
    (select_index s i).scrcpy_proc = s.scrcpy_proc := by
  unfold select_index
  split <;> rfl

/-- The stderr-reader thread never touches the tracked process handle. -/
lemma scrcpy_reader_proc (s : AppState) (ls : List Str) (ec : Option Int) :
    (scrcpy_reader s ls ec).1.scrcpy_proc = s.scrcpy_proc := by
  unfold scrcpy_reader
  cases hp : s.scrcpy_proc with
  | none => exact hp
  | some p =>
      dsimp only
      rw [show (log_msg (ls.foldl (fun st l => log_msg st [("[scrcpy]").data, pyStrip l]) s)
        [("scrcpy beendet (exit code)").data, pyStrOpt ec]).scrcpy_proc =
        (ls.foldl (fun st l => log_msg st [("[scrcpy]").data, pyStrip l]) s).scrcpy_proc from rfl]
      rw [foldl_log_msg_proc (fun l => [("[scrcpy]").data, pyStrip l]) ls s]
      exact hp

/-- Claim C2 — At most one mirroring-process handle is ever tracked: when the
tracked process is still alive, a mirror-start is rejected (state unchanged,
no spawn, and — when a real device is selected — exactly one informational
dialog); and across every application step, the handle field changes only
through a mirror-start taken when no process was tracked or the tracked
process had already exited. -/
theorem scrcpy_single_handle :
    (∀ (s : AppState) (p : Proc) (spawn : SpawnOutcome) (s' : AppState)
        (effs : List Effect),
      s.scrcpy_proc = some p →
      start_scrcpy s true spawn = .ok (s', effs) →
      s' = s ∧ (∀ c, Effect.popen c ∈ effs → False) ∧
      (∀ d, get_selected_device s.combo_text = .ok (some d) →
        no_device (some d) = false →
        effs = [Effect.info (("scrcpy läuft").data) (("scrcpy läuft bereits.").data)])) ∧
    (∀ (s : AppState) (e : UiEvent) (s' : AppState) (effs : List Effect),
      step s e = .ok (s', effs) →
      s'.scrcpy_proc ≠ s.scrcpy_proc →
      s.scrcpy_proc = none ∨ ∃ spawn, e = .launchClick false spawn) := by
  constructor
  · intro s p spawn s' effs hp hstep
    cases hg : get_selected_device s.combo_text with
    | exn k => simp [start_scrcpy, hg] at hstep
    | ok dev =>
        cases dev with
        | none =>
            simp only [start_scrcpy, hg, PyResult.ok.injEq, Prod.mk.injEq] at hstep
            obtain ⟨hs, he⟩ := hstep
            subst he
            exact ⟨hs.symm, by simp, fun d hd => by simp at hd⟩
        | some d =>
            simp only [start_scrcpy, hg] at hstep
            by_cases hnd : no_device (some d) = true
            · rw [if_pos hnd] at hstep
              simp only [PyResult.ok.injEq, Prod.mk.injEq] at hstep
              obtain ⟨hs, he⟩ := hstep
              subst he
              refine ⟨hs.symm, by simp, ?_⟩
              intro d' hd' hnd'
              simp only [PyResult.ok.injEq, Option.some.injEq] at hd'
              subst hd'
              simp [hnd] at hnd'
            · rw [if_neg hnd, if_pos (by simp [hp])] at hstep
              simp only [PyResult.ok.injEq, Prod.mk.injEq] at hstep
              obtain ⟨hs, he⟩ := hstep
              subst he
              exact ⟨hs.symm, by simp, fun d' _ _ => rfl⟩
  · intro s e s' effs hstep hne
    cases e with
    | refreshClick oc =>
        simp only [step, PyResult.ok.injEq] at hstep
        have h := refresh_devices_proc s oc
        rw [hstep] at h
        exact absurd h hne
    | connectClick oc =>
        simp only [step, PyResult.ok.injEq] at hstep
        have h := check_connection_proc s oc
        rw [hstep] at h
        exact absurd h hne
    | launchClick alive spawn =>
        cases hg : get_selected_device s.combo_text with
        | exn k => simp [step, start_scrcpy, hg] at hstep
        | ok dev =>
            cases dev with
            | none =>
                simp only [step, start_scrcpy, hg, PyResult.ok.injEq,
                  Prod.mk.injEq] at hstep
                exact absurd (by rw [← hstep.1]) hne
            | some d =>
                simp only [step, start_scrcpy, hg] at hstep
                by_cases hnd : no_device (some d) = true
                · rw [if_pos hnd] at hstep
                  simp only [PyResult.ok.injEq, Prod.mk.injEq] at hstep
                  exact absurd (by rw [← hstep.1]) hne
                · rw [if_neg hnd] at hstep
                  by_cases hal : (s.scrcpy_proc.isSome && alive) = true
                  · rw [if_pos hal] at hstep
                    simp only [PyResult.ok.injEq, Prod.mk.injEq] at hstep
                    exact absurd (by rw [← hstep.1]) hne
                  · cases hso : s.scrcpy_proc with
                    | none => exact Or.inl rfl
                    | some p =>
                        cases halv : alive with
                        | false => exact Or.inr ⟨spawn, rfl⟩
                        | true => exact absurd (by simp [hso, halv]) hal
    | stopClick alive waitOk =>
        simp only [step] at hstep
        exact absurd (stop_scrcpy_proc s alive waitOk s' effs hstep) hne
    | pushClick l t =>
        simp only [step] at hstep
        exact absurd (cmd_push_file_proc s l t s' effs hstep) hne
    | pullClick r1 r2 lo =>
        simp only [step] at hstep
        exact absurd (cmd_pull_file_proc s r1 r2 lo s' effs hstep) hne
    | installClick a =>
        simp only [step] at hstep
        exact absurd (install_apk_proc s a s' effs hstep) hne
    | startAppClick oc =>
        simp only [step] at hstep
        exact absurd (start_app_proc s oc s' effs hstep) hne
    | clipboardClick oc =>
        simp only [step] at hstep
        exact absurd (send_clipboard_proc s oc s' effs hstep) hne
    | comboSelect i =>
        simp only [step, PyResult.ok.injEq, Prod.mk.injEq] at hstep
        have h := select_index_proc s i
        rw [hstep.1] at h
        exact absurd h hne
    | readerThread ls ec =>
        simp only [step, PyResult.ok.injEq] at hstep
        have h := scrcpy_reader_proc s ls ec
        rw [hstep] at h
        exact absurd h hne
    | pushThread d l t oc =>
        simp only [step, PyResult.ok.injEq] at hstep
        have h : s' = (adb_push_thread s d l t oc).1 := by rw [hstep]
        exact absurd (by rw [h]; rfl) hne
    | pullThread d r lo oc =>
        simp only [step, PyResult.ok.injEq] at hstep
        have h : s' = (adb_pull_thread s d r lo oc).1 := by rw [hstep]
        exact absurd (by rw [h]; rfl) hne
    | installThread d a oc =>
        simp only [step, PyResult.ok.injEq] at hstep
        have h : s' = (adb_install_thread s d a oc).1 := by rw [hstep]
        exact absurd (by rw [h]; rfl) hne

/-- Closed witness for `scrcpy_single_handle`: with a live tracked process
and a selected device, mirror-start leaves the state unchanged. -/
theorem scrcpy_single_handle_witness :
    ({ initState with combo_items := [("dev1 device").data], combo_text := ("dev1 device").data, scrcpy_proc := some ⟨1⟩ } : AppState).scrcpy_proc = some ⟨1⟩ ∧
    ({ initState with combo_items := [("dev1 device").data], combo_text := ("dev1 device").data, scrcpy_proc := some ⟨1⟩ } : AppState) =
      { initState with combo_items := [("dev1 device").data], combo_text := ("dev1 device").data, scrcpy_proc := some ⟨1⟩ } :=
  ⟨rfl,
    (scrcpy_single_handle.1
      { initState with combo_items := [("dev1 device").data], combo_text := ("dev1 device").data, scrcpy_proc := some ⟨1⟩ }
      ⟨1⟩ (.spawned ⟨2⟩)
      { initState with combo_items := [("dev1 device").data], combo_text := ("dev1 device").data, scrcpy_proc := some ⟨1⟩ }
      [Effect.info (("scrcpy läuft").data) (("scrcpy läuft bereits.").data)]
      rfl (by decide)).1⟩

/-- Two successive `log_msg` calls append two lines. -/
lemma log_msg_log2 (s : AppState) (a b : List Str) :
    (log_msg (log_msg s a) b).log = s.log ++ [joinSpace a, joinSpace b] := by
  rw [log_msg_log, log_msg_log, List.append_assoc]
  rfl

/-- Folding `log_msg` over a list only appends to the log. -/
lemma foldl_log_msg_log (g : Str → List Str) :
    ∀ (ls : List Str) (s : AppState),
      ∃ t, (ls.foldl (fun st l => log_msg st (g l)) s).log = s.log ++ t := by
  intro ls
  induction ls with
  | nil => intro s; exact ⟨[], by simp⟩
  | cons l ls ih =>
      intro s
      obtain ⟨t, ht⟩ := ih (log_msg s (g l))
      refine ⟨joinSpace (g l) :: t, ?_⟩
      rw [List.foldl_cons, ht, log_msg_log]
      simp

/-- Handler `refresh_devices` only appends to the log. -/
lemma refresh_devices_log (s : AppState) (oc : RunOutcome) :
    ∃ t, (refresh_devices s oc).1.log = s.log ++ t := by
  simp only [refresh_devices]
  split
  · exact ⟨_, rfl⟩
  · exact ⟨_, rfl⟩

/-- Handler `check_connection` only appends to the log. -/
lemma check_connection_log (s : AppState) (oc : RunOutcome) :
    ∃ t, (check_connection s oc).1.log = s.log ++ t := by
  simp only [check_connection]
  split
  · exact ⟨_, rfl⟩
  · exact ⟨_, rfl⟩

/-- Handler `start_scrcpy` only appends to the log. -/
lemma start_scrcpy_log (s : AppState) (alive : Bool) (spawn : SpawnOutcome)
    (s' : AppState) (effs : List Effect)
    (h : start_scrcpy s alive spawn = .ok (s', effs)) :
    ∃ t, s'.log = s.log ++ t := by
  unfold start_scrcpy at h
  cases hg : get_selected_device s.combo_text with
  | exn k => rw [hg] at h; cases h
  | ok dev =>
      rw [hg] at h
      cases dev with
      | none => cases h; exact ⟨[], by simp⟩
      | some d =>
          dsimp only at h
          split_ifs at h
          · cases h; exact ⟨[], by simp⟩
          · cases h; exact ⟨[], by simp⟩
          · cases spawn with
            | spawned p => cases h; exact ⟨_, log_msg_log s _⟩
            | notFound m => cases h; exact ⟨_, log_msg_log2 s _ _⟩

/-- Handler `stop_scrcpy` only appends to the log. -/
lemma stop_scrcpy_log (s : AppState) (alive waitOk : Bool)
    (s' : AppState) (effs : List Effect)
    (h : stop_scrcpy s alive waitOk = .ok (s', effs)) :
    ∃ t, s'.log = s.log ++ t := by
  unfold stop_scrcpy at h
  cases hp : s.scrcpy_proc with
  | some p =>
      rw [hp] at h
      split_ifs at h
      · cases h; exact ⟨_, log_msg_log s _⟩
      · cases h; exact ⟨_, log_msg_log s _⟩
  | none => rw [hp] at h; cases h; exact ⟨_, log_msg_log s _⟩

/-- Handler `cmd_push_file` only appends to the log. -/
lemma cmd_push_file_log (s : AppState) (l t : Str) (s' : AppState)
    (effs : List Effect) (h : cmd_push_file s l t = .ok (s', effs)) :
    ∃ u, s'.log = s.log ++ u := by
  unfold cmd_push_file at h
  cases hg : get_selected_device s.combo_text with
  | exn k => rw [hg] at h; cases h
  | ok dev =>
      rw [hg] at h
      cases dev with
      | none => cases h; exact ⟨[], by simp⟩
      | some d =>
          dsimp only at h
          split_ifs at h <;> cases h <;>
            first
            | exact ⟨_, log_msg_log s _⟩
            | exact ⟨[], by simp⟩

/-- Handler `cmd_pull_file` only appends to the log. -/
lemma cmd_pull_file_log (s : AppState) (r1 r2 lo : Str) (s' : AppState)
    (effs : List Effect) (h : cmd_pull_file s r1 r2 lo = .ok (s', effs)) :
    ∃ u, s'.log = s.log ++ u := by
  unfold cmd_pull_file at h
  cases hg : get_selected_device s.combo_text with
  | exn k => rw [hg] at h; cases h
  | ok dev =>
      rw [hg] at h
      cases dev with
      | none => cases h; exact ⟨[], by simp⟩
      | some d =>
          dsimp only at h
          split_ifs at h <;> cases h <;>
            first
            | exact ⟨_, log_msg_log s _⟩
            | exact ⟨[], by simp⟩

/-- Handler `install_apk` only appends to the log. -/
lemma install_apk_log (s : AppState) (a : Str) (s' : AppState)
    (effs : List Effect) (h : install_apk s a = .ok (s', effs)) :
    ∃ u, s'.log = s.log ++ u := by
  unfold install_apk at h
  cases hg : get_selected_device s.combo_text with
  | exn k => rw [hg] at h; cases h
  | ok dev =>
      rw [hg] at h
      cases dev with
      | none => cases h; exact ⟨[], by simp⟩
      | some d =>
          dsimp only at h
          split_ifs at h <;> cases h <;>
            first
            | exact ⟨_, log_msg_log s _⟩
            | exact ⟨[], by simp⟩

/-- Handler `start_app` only appends to the log. -/
lemma start_app_log (s : AppState) (oc : RunOutcome) (s' : AppState)
    (effs : List Effect) (h : start_app s oc = .ok (s', effs)) :
    ∃ u, s'.log = s.log ++ u := by
  unfold start_app at h
  cases hg : get_selected_device s.combo_text with
  | exn k => rw [hg] at h; cases h
  | ok dev =>
      rw [hg] at h
      dsimp only at h
      split_ifs at h
      · cases h; exact ⟨[], by simp⟩
      · cases dev with
        | none => cases h
        | some d => cases h; exact ⟨_, log_msg_log2 s _ _⟩

/-- Handler `send_clipboard` only appends to the log. -/
lemma send_clipboard_log (s : AppState) (oc : RunOutcome) (s' : AppState)
    (effs : List Effect) (h : send_clipboard s oc = .ok (s', effs)) :
    ∃ u, s'.log = s.log ++ u := by
  unfold send_clipboard at h
  cases hg : get_selected_device s.combo_text with
  | exn k => rw [hg] at h; cases h
  | ok dev =>
      rw [hg] at h
      dsimp only at h
      split_ifs at h
      · cases h; exact ⟨[], by simp⟩
      · cases dev with
        | none => cases h
        | some d => cases h; exact ⟨_, log_msg_log2 s _ _⟩

/-- The stderr-reader thread only appends to the log. -/
lemma scrcpy_reader_log (s : AppState) (ls : List Str) (ec : Option Int) :
    ∃ t, (scrcpy_reader s ls ec).1.log = s.log ++ t := by
  unfold scrcpy_reader
  cases hp : s.scrcpy_proc with
  | none => exact ⟨[], by simp⟩
  | some p =>
      dsimp only
      obtain ⟨t, ht⟩ := foldl_log_msg_log (fun l => [("[scrcpy]").data, pyStrip l]) ls s
      refine ⟨t ++ [joinSpace [("scrcpy beendet (exit code)").data, pyStrOpt ec]], ?_⟩
      rw [log_msg_log, ht, List.append_assoc]

/-- Claim C8 — The log buffer is append-only: every application step that
completes normally turns the log `L` into `L ++ t` for some (possibly
empty) list of whole lines — no step removes, reorders or rewrites existing
lines, and none clears the buffer. -/
theorem log_append_only :
    ∀ (s : AppState) (e : UiEvent) (s' : AppState) (effs : List Effect),
      step s e = .ok (s', effs) → ∃ t, s'.log = s.log ++ t := by
  intro s e s' effs hstep
  cases e with
  | refreshClick oc =>
      simp only [step, PyResult.ok.injEq] at hstep
      obtain ⟨t, ht⟩ := refresh_devices_log s oc
      exact ⟨t, by rw [← ht, hstep]⟩
  | connectClick oc =>
      simp only [step, PyResult.ok.injEq] at hstep
      obtain ⟨t, ht⟩ := check_connection_log s oc
      exact ⟨t, by rw [← ht, hstep]⟩
  | launchClick alive spawn =>
      simp only [step] at hstep
      exact start_scrcpy_log s alive spawn s' effs hstep
  | stopClick alive waitOk =>
      simp only [step] at hstep
      exact stop_scrcpy_log s alive waitOk s' effs hstep
  | pushClick l t =>
      simp only [step] at hstep
      exact cmd_push_file_log s l t s' effs hstep
  | pullClick r1 r2 lo =>
      simp only [step] at hstep
      exact cmd_pull_file_log s r1 r2 lo s' effs hstep
  | installClick a =>
      simp only [step] at hstep
      exact install_apk_log s a s' effs hstep
  | startAppClick oc =>
      simp only [step] at hstep
      exact start_app_log s oc s' effs hstep
  | clipboardClick oc =>
      simp only [step] at hstep
      exact send_clipboard_log s oc s' effs hstep
  | comboSelect i =>
      simp only [step, PyResult.ok.injEq, Prod.mk.injEq] at hstep
      refine ⟨[], ?_⟩
      rw [← hstep.1]
      unfold select_index
      split <;> simp
  | readerThread ls ec =>
      simp only [step, PyResult.ok.injEq] at hstep
      obtain ⟨t, ht⟩ := scrcpy_reader_log s ls ec
      exact ⟨t, by rw [← ht, hstep]⟩
  | pushThread d l t oc =>
      simp only [step, PyResult.ok.injEq] at hstep
      have h : s' = (adb_push_thread s d l t oc).1 := by rw [hstep]
      subst h
      exact ⟨_, log_msg_log s _⟩
  | pullThread d r lo oc =>
      simp only [step, PyResult.ok.injEq] at hstep
      have h : s' = (adb_pull_thread s d r lo oc).1 := by rw [hstep]
      subst h
      exact ⟨_, log_msg_log s _⟩
  | installThread d a oc =>
      simp only [step, PyResult.ok.injEq] at hstep
      have h : s' = (adb_install_thread s d a oc).1 := by rw [hstep]
      subst h
      exact ⟨_, log_msg_log s _⟩

/-- Closed witness for `log_append_only`: a stop click with no tracked
process appends one line. -/
theorem log_append_only_witness :
    ∃ t, (log_msg initState [("Kein scrcpy Prozess aktiv.").data]).log = initState.log ++ t :=
  log_append_only initState (.stopClick false false)
    (log_msg initState [("Kein scrcpy Prozess aktiv.").data]) [] rfl

/-- Claim C9 counterexample — The claim "the accessor returns None exactly
when the text is empty and otherwise returns the first whitespace-separated
token" fails at the non-empty, all-whitespace text `" "`: there the token
list is empty and `txt.split()[0]` raises `IndexError`, so no token (and no
`None`) is returned. -/
theorem get_selected_device_whitespace_cex :
    get_selected_device [' '] = PyResult.exn ExnKind.indexError ∧
    ([' '] : Str) ≠ [] ∧ pySplit [' '] = [] := by
  decide

/-- Claim C9 amended — The selected-device accessor returns `None` exactly
when the selector text is empty; on a text with at least one
whitespace-separated token it returns that first token; on a non-empty
all-whitespace text (no token) it raises `IndexError`. -/
theorem get_selected_device_first_token :
    ∀ txt : Str,
      (get_selected_device txt = .ok none ↔ txt = []) ∧
      (∀ t ts, pySplit txt = t :: ts → get_selected_device txt = .ok (some t)) ∧
      (txt ≠ [] → pySplit txt = [] → get_selected_device txt = .exn .indexError) := by
  intro txt
  unfold get_selected_device
  by_cases h : txt = []
  · subst h
    refine ⟨by simp, ?_, by simp⟩
    intro t ts hts
    simp [pySplit, pyTokensAux] at hts
  · rw [if_neg h]
    cases hsp : pySplit txt with
    | nil =>
        refine ⟨by simp [h], ?_, fun _ _ => rfl⟩
        intro t ts hts
        cases hts
    | cons t0 ts0 =>
        refine ⟨by simp [h], ?_, ?_⟩
        · intro t ts hts
          cases hts
          rfl
        · intro _ hnil
          cases hnil

/-- Closed witness for `get_selected_device_first_token` at the text
"ab c", whose first token is "ab". -/
theorem get_selected_device_first_token_witness :
    get_selected_device ['a', 'b', ' ', 'c'] = PyResult.ok (some ['a', 'b']) :=
  (get_selected_device_first_token ['a', 'b', ' ', 'c']).2.1 ['a', 'b'] [['c']] (by decide)

/-- Claim C5 — Contrary to the claim, `start_app` and `send_clipboard` never
check the selected device: with the placeholder entry shown ("no device
selected" by the application's own convention) and a non-empty text field,
each invokes the external bridge command with the placeholder's first token
`"<kein"` as the device argument and shows no warning (the effect list is
exactly the one external-command run); and with an empty selector,
`start_app` raises `TypeError` (Python `None` in the argument list) instead
of warning. Only the empty-text-field half of the claim holds. -/
theorem start_app_clipboard_missing_device_guard :
    (∃ s', start_app { initState with combo_items := [placeholder], combo_text := placeholder, app_start_input := ("com.example.app/.MainActivity").data } (.completed 1 [] []) =
      .ok (s', [Effect.runExternal (adb_argv [("-s").data, ("<kein").data, ("shell").data, ("am").data, ("start").data, ("-n").data, ("com.example.app/.MainActivity").data])])) ∧
    (∃ s', send_clipboard { initState with combo_items := [placeholder], combo_text := placeholder, clip_text := ("Hallo").data } (.completed 1 [] []) =
      .ok (s', [Effect.runExternal (adb_argv [("-s").data, ("<kein").data, ("shell").data, ("input").data, ("text").data, ("Hallo").data])])) ∧
    start_app { initState with app_start_input := ("com.example.app/.MainActivity").data } (.completed 1 [] []) = .exn .typeError :=
  ⟨⟨_, rfl⟩, ⟨_, rfl⟩, rfl⟩
